import Mathlib

set_option maxRecDepth 10000

/-!
Verification of the SSE (Streamable HTTP) transport of the HDF5 MCP server,
`src/mcps/HDF5/src/hdf5_mcp/transports/sse_transport.py`, against its
natural-language specification.

The Python module is shallowly embedded below: pure helper functions become
Lean functions, methods that mutate `self` become explicit state-passing
functions, Python dicts become association lists, header values become
`Option String` (absent header = `none`), and JSON values become the `JValue`
inductive.  Asynchronous I/O (the aiohttp server, stream writes, queues) is
not modelled; only the state transitions and return values the claims speak
about are.  Event payloads (`data: Any` in Python) are a type parameter `α`.
-/

namespace SSE

/-! ### Dictionaries as association lists

Python `dict[str, β]` is modelled as an association list.  `dictGet` is
`d.get(k)` / `d[k]`-after-membership-check, `dictSet` is `d[k] = v`
(replacing any previous binding), `dictErase` is `del d[k]`. -/

def dictGet {β : Type} (d : List (String × β)) (k : String) : Option β :=
  (d.find? (fun p => p.1 == k)).map (fun p => p.2)

def dictSet {β : Type} (d : List (String × β)) (k : String) (v : β) :
    List (String × β) :=
  (k, v) :: d.filter (fun p => !(p.1 == k))

def dictErase {β : Type} (d : List (String × β)) (k : String) :
    List (String × β) :=
  d.filter (fun p => !(p.1 == k))

/-! ### JSON values and module-level constants -/

/-- Decoded JSON value, as produced by `await request.json()`. -/
inductive JValue where
  | null
  | bool (b : Bool)
  | num (n : Int)
  | str (s : String)
  | arr (elems : List JValue)
  | obj (fields : List (String × JValue))

/-- Line 39: `SUPPORTED_VERSIONS = ['2025-06-18', '2025-03-26', '2024-11-05']`. -/
def SUPPORTED_VERSIONS : List String := ["2025-06-18", "2025-03-26", "2024-11-05"]

/-- Lines 41-47, dataclass `SessionInfo`.  Event-loop timestamps are
modelled as naturals; the free-form `client_info` map carries no
claim-relevant information and is dropped. -/
structure SessionInfo where
  session_id : String
  created_at : Nat
  last_accessed : Nat
deriving DecidableEq

/-- Lines 49-58, dataclass `SSEClient`.  The `request`, `response` and
`queue` fields are live I/O handles and are not part of the state the
claims are about; the data fields are kept. -/
structure SSEClient where
  client_id : String
  last_ping : Nat
  session_id : Option String := none
  event_counter : Nat := 0
deriving DecidableEq

/-- Python truthiness of an optional header string: `None` and `''` are
falsy, every other string is truthy (used by `if not origin:`,
`if not session_id:`, `if ... and session_id:`). -/
def headerTruthy : Option String → Bool
  | none => false
  | some s => !(s == "")

/-! ### Transport configuration and `__init__` (lines 63-79) -/

/-- The claim-relevant fields of `TransportConfig` (from `transports/base.py`,
constructed at lines 64-73): the bind host (`None` representable) and port. -/
structure TransportConfig where
  host : Option String
  port : Nat
deriving DecidableEq

/-- Lines 64-73: the default config built when `config is None`. -/
def defaultConfig : TransportConfig :=
  { host := some "127.0.0.1", port := 8765 }

/-- Lines 63-79, `SSETransport.__init__`: substitute the default config when
none is given, then `if config.host in ['0.0.0.0', None]: config.host =
'127.0.0.1'`.  Returns the effective config the server will bind. -/
def sseTransportInit (config : Option TransportConfig) : TransportConfig :=
  let cfg := config.getD defaultConfig
  if cfg.host = some "0.0.0.0" ∨ cfg.host = none then
    { cfg with host := some "127.0.0.1" }
  else cfg

/-- Loopback predicate used to state the bind-policy claim (from the spec's
words "a loopback address"): `127.x.y.z`, `localhost`, or IPv6 `::1`. -/
def isLoopbackHost : Option String → Bool
  | none => false
  | some s => "127.".data.isPrefixOf s.data || s == "localhost" || s == "::1"

/-! ### Origin validation (lines 148-165) -/

/-- Lines 155-158: `allowed_prefixes`. -/
def allowed_prefixes : List String :=
  ["http://localhost", "http://127.0.0.1", "https://localhost", "https://127.0.0.1"]

/-- Lines 148-165, `_validate_origin`: absent (or Python-falsy, i.e. empty)
`Origin` header is allowed; otherwise the header must start with one of the
four allowed prefixes.  Python `origin.startswith(prefix)` is prefix test on
the character list. -/
def validate_origin (origin : Option String) : Bool :=
  match origin with
  | none => true
  | some o =>
    if o == "" then true
    else allowed_prefixes.any (fun p => p.data.isPrefixOf o.data)

/-! ### Session registry (lines 167-196) -/

/-- Lines 181-190, `_validate_session` (boolean result): falsy ids fail,
unknown ids fail, known ids validate.  The `last_accessed` touch performed on
success is a timestamp write that no claim observes; the validated session
table is otherwise unchanged. -/
def validate_session (sessions : List (String × SessionInfo))
    (session_id : Option String) : Bool :=
  if !(headerTruthy session_id) then false
  else (dictGet sessions (session_id.getD "")).isSome

/-! ### Protocol-version validation (lines 198-203) -/

/-- Lines 198-203, `_validate_protocol_version`: the header defaults to
`'2025-03-26'` when absent; membership in `SUPPORTED_VERSIONS` is required.
Returns `(valid, version-or-error-text)`. -/
def validate_protocol_version (header : Option String) : Bool × String :=
  let v := header.getD "2025-03-26"
  if v ∈ SUPPORTED_VERSIONS then (true, v)
  else (false, "Unsupported protocol version: " ++ v)

/-! ### Event ids and the event history (lines 205-230) -/

/-- Lines 205-208, `_generate_event_id`: increment the client's counter and
format `f"{client.client_id}_{client.event_counter}"`.  Returns the id and
the updated client. -/
def generate_event_id (client : SSEClient) : String × SSEClient :=
  let c := client.event_counter + 1
  (client.client_id ++ "_" ++ Nat.repr c, { client with event_counter := c })

/-- Lines 214-217 of `_store_event`, restricted to one client's log: append
the `(event_id, data)` pair, then truncate to the last 100 entries
(`history[-100:]`). -/
def store_entry {α : Type} (log : List (String × α)) (event_id : String)
    (data : α) : List (String × α) :=
  let l := log ++ [(event_id, data)]
  if l.length > 100 then l.drop (l.length - 100) else l

/-- Lines 210-217, `_store_event`: initialise the client's log to `[]` when
missing, append, truncate to the last 100 entries. -/
def store_event {α : Type} (hist : List (String × List (String × α)))
    (client_id event_id : String) (data : α) :
    List (String × List (String × α)) :=
  dictSet hist client_id
    (store_entry ((dictGet hist client_id).getD []) event_id data)

/-! ### Event replay (lines 219-230)

`_replay_events` iterates `for event_id, data in self.event_history[cid]:`.
The iterated expression is evaluated once, yielding the *list object* bound
in the dict at loop entry.  Each re-delivered event goes through
`_send_sse_event`, whose `_store_event` call appends to the dict's current
list in place and, on overflow (`> 100`), rebinds the dict entry to a fresh
truncated copy.  While dict entry and iterated object are the same object
("aliased"), appends grow the iterated list; the first truncation breaks the
aliasing, after which the iterated list is fixed.  `ReplayState` carries both
lists and the aliasing flag to model this exactly. -/

structure ReplayState (α : Type) where
  /-- The list object the `for` loop iterates (grows in place while aliased). -/
  iterObj : List (String × α)
  /-- Whether `event_history[cid]` still is the iterated object. -/
  aliased : Bool
  /-- The list currently bound in `event_history[cid]`. -/
  histEntry : List (String × α)
  /-- Events written to the client's stream by the replay, in order. -/
  sent : List (String × α)
  /-- The `replay` flag of lines 224-228. -/
  found : Bool

/-- Effect of `_send_sse_event(client, 'message', data, event_id=event_id)`
during replay on the `ReplayState`: record the stream write in `sent` and
run `_store_event` (append + truncate), tracking the aliasing between the
dict entry and the iterated object. -/
def replay_send_store {α : Type} (s : ReplayState α) (event_id : String)
    (data : α) : ReplayState α :=
  if s.aliased then
    let grown := s.iterObj ++ [(event_id, data)]
    { iterObj := grown
      aliased := decide (grown.length ≤ 100)
      histEntry := store_entry s.iterObj event_id data
      sent := s.sent ++ [(event_id, data)]
      found := s.found }
  else
    { s with
      histEntry := store_entry s.histEntry event_id data
      sent := s.sent ++ [(event_id, data)] }

/-- The `for` loop of lines 224-230, iterating the (possibly growing) list
object by position.  `fuel` bounds the number of iterations; structural
recursion on it keeps the definition computable, and every use below passes
fuel exceeding the loop's iteration count (the iterated object stops growing
once it exceeds 100 elements, so at most `max 101 (length + 1)` positions
exist). -/
def replay_loop {α : Type} (last_event_id : String) :
    Nat → Nat → ReplayState α → ReplayState α
  | 0, _, s => s
  | fuel + 1, i, s =>
    match s.iterObj.get? i with
    | none => s
    | some (event_id, data) =>
      if event_id == last_event_id then
        replay_loop last_event_id fuel (i + 1) { s with found := true }
      else if s.found then
        replay_loop last_event_id fuel (i + 1) (replay_send_store s event_id data)
      else
        replay_loop last_event_id fuel (i + 1) s

/-- Lines 219-230, `_replay_events`: no-op when the client has no history
entry; otherwise run the loop and return the updated history together with
the list of re-delivered events. -/
def replay_events {α : Type} (hist : List (String × List (String × α)))
    (client_id last_event_id : String) :
    List (String × List (String × α)) × List (String × α) :=
  match dictGet hist client_id with
  | none => (hist, [])
  | some l =>
    let s := replay_loop last_event_id (2 * l.length + 206) 0
      { iterObj := l, aliased := true, histEntry := l, sent := [], found := false }
    (dictSet hist client_id s.histEntry, s.sent)

/-! ### Message classification (lines 590-611) -/

/-- A parsed JSON-RPC message, tagged by kind as in `mcp.types`. -/
inductive JMessage where
  | request (data : JValue)
  | notification (data : JValue)
  | response (data : JValue)

def JMessage.isRequest : JMessage → Bool
  | .request _ => true
  | _ => false

def JMessage.isNotification : JMessage → Bool
  | .notification _ => true
  | _ => false

def JMessage.isResponse : JMessage → Bool
  | .response _ => true
  | _ => false

/-- Python `'key' in data` for a decoded JSON object. -/
def hasKey (fields : List (String × JValue)) (k : String) : Bool :=
  (fields.find? (fun p => p.1 == k)).isSome

/-- Python `data.get('key')` on a decoded JSON value (`none` off objects). -/
def objGet : JValue → String → Option JValue
  | .obj fields, k => dictGet fields k
  | _, _ => none

/-- Lines 590-611, `_parse_message`: objects with `method` are requests
(with `id`) or notifications (without); objects with `result` or `error`
are responses; everything else — objects matching no shape, and non-objects
(where `'method' in data` or the `**data` expansion raises, caught by the
`except`) — yields `None`.  The `mcp.types` pydantic constructors are an
external dependency and are modelled as total on the matched shapes. -/
def parse_message : JValue → Option JMessage
  | .obj fields =>
    if hasKey fields "method" then
      if hasKey fields "id" then some (.request (.obj fields))
      else some (.notification (.obj fields))
    else if hasKey fields "result" || hasKey fields "error" then
      some (.response (.obj fields))
    else none
  | _ => none

/-- Lines 337-350 of `_handle_post`: a list body is classified element-wise
with invalid items dropped; a single body yields at most one message. -/
def classify_messages : JValue → List JMessage
  | .arr items => items.filterMap parse_message
  | data => (parse_message data).toList

/-- The JSON-RPC envelopes a body contains: the elements of an array body,
or the body itself. -/
def member_messages : JValue → List JValue
  | .arr items => items
  | data => [data]

/-- Line 330: `isinstance(data, dict) and data.get('method') == 'initialize'`. -/
def is_initialize_msg (data : JValue) : Bool :=
  match data with
  | .obj fields =>
    match objGet (.obj fields) "method" with
    | some (.str s) => s == "initialize"
    | _ => false
  | _ => false

/-! ### The POST handler (lines 297-387) -/

/-- Python `'pat' in s` substring containment on strings, by character list. -/
def strContainsAux (pat : List Char) : List Char → Bool
  | [] => pat.isEmpty
  | c :: rest => pat.isPrefixOf (c :: rest) || strContainsAux pat rest

def str_contains (s pat : String) : Bool :=
  strContainsAux pat.data s.data

/-- The inbound `POST /mcp` request: the headers `_handle_post` reads, and
the result of `await request.json()` (`Except.error` when the body is not
valid JSON, carrying the parser's error text). -/
structure PostRequest where
  origin : Option String
  protocol_version : Option String
  content_type : Option String
  session_header : Option String
  accept : Option String
  body : Except String JValue

/-- The response `_handle_post` produces, one constructor per `return`:
`forbidden` = 403 line 302, `badVersion` = 400 line 307, `badContentType` =
400 lines 313-317, `badJson` = 400 lines 322-326, `sessionNotFound` = 404
line 335, `accepted` = 202 line 361, `sseStream` = the `_initiate_sse`
stream of line 368, `jsonAck` = the JSON acknowledgement of lines 373-382
(`mint_session` records whether a fresh session id is created and returned
in the `Mcp-Session-Id` header). -/
inductive PostResult where
  | forbidden
  | badVersion (text : String)
  | badContentType
  | badJson (text : String)
  | sessionNotFound
  | accepted
  | sseStream (messages : List JMessage) (session : Option String)
      ( is_initialize : Bool)
  | jsonAck (message_count : Nat) (mint_session : Bool)

/-- HTTP status code of each `_handle_post` outcome, from the
`web.Response(status=...)` calls. -/
def statusCode : PostResult → Nat
  | .forbidden => 403
  | .badVersion _ => 400
  | .badContentType => 400
  | .badJson _ => 400
  | .sessionNotFound => 404
  | .accepted => 202
  | .sseStream _ _ _ => 200
  | .jsonAck _ _ => 200

/-- Lines 297-387, `_handle_post`: the gate sequence (origin, protocol
version, content type, JSON parse, session), then message classification,
the 202 fast path for all-responses/all-notifications, and the
`Accept`-driven choice between an SSE stream and a JSON acknowledgement.
Counter updates (`self.stats`) are unobserved by the result and omitted. -/
def handle_post (sessions : List (String × SessionInfo)) (req : PostRequest) :
    PostResult :=
  if !(validate_origin req.origin) then .forbidden
  else
    let vv := validate_protocol_version req.protocol_version
    if !vv.1 then .badVersion vv.2
    else if !(str_contains (req.content_type.getD "") "application/json") then
      .badContentType
    else
      match req.body with
      | .error e => .badJson ("Invalid JSON: " ++ e)
      | .ok data =>
        let is_init := is_initialize_msg data
        if !is_init && headerTruthy req.session_header
            && !(validate_session sessions req.session_header) then
          .sessionNotFound
        else
          let messages := classify_messages data
          let is_notification := messages.all JMessage.isNotification
          let is_response := messages.all JMessage.isResponse
          if is_response || is_notification then .accepted
          else if str_contains (req.accept.getD "") "text/event-stream" then
            .sseStream messages req.session_header is_init
          else
            .jsonAck messages.length (is_init && !(headerTruthy req.session_header))

/-! ### Transport state, `stop`, and `_close_client` (lines 81-146, 532-542) -/

/-- The shared mutable state of one `SSETransport` instance (lines 81-88):
the connection table `self.clients` (a dict keyed by `client.client_id`,
so modelled as the list of clients), the session table `self.sessions`,
the per-connection event history `self.event_history`, the connection
counter, and the `running` flag.  The aiohttp runner/site/app handles and
the ping task are I/O objects outside the state model. -/
structure TransportState (α : Type) where
  running : Bool
  clients : List SSEClient
  sessions : List (String × SessionInfo)
  event_history : List (String × List (String × α))
  client_counter : Nat

/-- Lines 532-542, `_close_client`: remove the client from the connection
table (`del self.clients[client.client_id]` guarded by membership, i.e.
every entry with that id disappears); the `write_eof` on the stream is I/O. -/
def close_client {α : Type} (st : TransportState α) (client : SSEClient) :
    TransportState α :=
  { st with clients := st.clients.filter (fun c => !(c.client_id == client.client_id)) }

/-- Lines 124-146, `stop`: clear `running`, cancel the ping task (I/O),
close every client in a snapshot of the connection table
(`for client in list(self.clients.values())`), and stop the server.
Nothing else in the shared state is touched. -/
def stop {α : Type} (st : TransportState α) : TransportState α :=
  let st := { st with running := false }
  st.clients.foldl close_client st

/-- Lines 444-465 of `_initiate_sse`, the connection bring-up and replay:
allocate the next connection id `f"client_{self.client_counter}"` after
incrementing the counter, build a fresh `SSEClient` with `event_counter=0`,
register it, and, when a `Last-Event-ID` header is supplied, run
`_replay_events` for the *new* client.  Returns the updated state and the
events the replay wrote to the stream.  (`now` stands for the event-loop
time used for `last_ping`.) -/
def initiate_sse_replay {α : Type} (st : TransportState α) (now : Nat)
    (session_id : Option String) (last_event_id : Option String) :
    TransportState α × SSEClient × List (String × α) :=
  let counter := st.client_counter + 1
  let client_id := "client_" ++ Nat.repr counter
  let client : SSEClient :=
    { client_id := client_id, last_ping := now, session_id := session_id
      event_counter := 0 }
  let st := { st with client_counter := counter, clients := st.clients ++ [client] }
  match last_event_id with
  | none => (st, client, [])
  | some le =>
    let (hist, sent) := replay_events st.event_history client_id le
    ({ st with event_history := hist }, client, sent)

/-- Lines 501-526, `_send_sse_event`, as a state transition on the event
history and the client: generate a fresh id when none is supplied (live
delivery) or keep the supplied one (replay), then unconditionally store the
event in the client's history (line 515) and write it to the stream.
Returns the new history, the (possibly counter-advanced) client, and the id
the stream record carried. -/
def send_sse_event {α : Type} (hist : List (String × List (String × α)))
    (client : SSEClient) (event_id : Option String) (data : α) :
    List (String × List (String × α)) × SSEClient × String :=
  match event_id with
  | none =>
    let (eid, client) := generate_event_id client
    (store_event hist client.client_id eid data, client, eid)
  | some eid =>
    (store_event hist client.client_id eid data, client, eid)

/-! ### Iterated event-id generation (for the monotonicity claim) -/

/-- Iterating `_generate_event_id` for `n` successive live deliveries to
one client: the emitted ids and the final client. -/
def gen_event_ids (client : SSEClient) : Nat → List String × SSEClient
  | 0 => ([], client)
  | n + 1 =>
    let (eid, client) := generate_event_id client
    let (rest, client) := gen_event_ids client n
    (eid :: rest, client)

/-- Connection ids as allocated at line 446: `f"client_{self.client_counter}"`. -/
def mk_client_id (n : Nat) : String := "client_" ++ Nat.repr n

/-- The event-id string `f"{client_id}_{counter}"` of line 208, for the
connection ids the transport itself allocates. -/
def event_id_str (conn counter : Nat) : String :=
  mk_client_id conn ++ "_" ++ Nat.repr counter

/-! ### Decimal digits of `Nat.repr` (facts needed for id recoverability) -/

/-- Reference characterisation of the decimal digit characters of `n`,
most-significant first (`Nat.toDigits 10 n` computes exactly this list). -/
def decChars (n : Nat) : List Char :=
  if n < 10 then [Nat.digitChar n]
  else decChars (n / 10) ++ [Nat.digitChar (n % 10)]
  termination_by n
  decreasing_by exact Nat.div_lt_self (by omega) (by omega)

/-! ## Helper lemmas -/

theorem find?_filter_ne {β : Type} (d : List (String × β)) (k k' : String)
    (hne : k' ≠ k) :
    (d.filter (fun p => !(p.1 == k))).find? (fun p => p.1 == k')
      = d.find? (fun p => p.1 == k') := by
  induction d with
  | nil => rfl
  | cons p d ih =>
    by_cases hk : p.1 = k
    · have h1 : (p.1 == k) = true := by simp [hk]
      have h2 : (p.1 == k') = false := by simp [hk, Ne.symm hne]
      simp [List.filter_cons, h1, List.find?_cons, h2, ih]
    · have h1 : (p.1 == k) = false := by simp [hk]
      by_cases hk' : p.1 = k'
      · have h2 : (p.1 == k') = true := by simp [hk']
        simp [List.filter_cons, h1, List.find?_cons, h2]
      · have h2 : (p.1 == k') = false := by simp [hk']
        simp [List.filter_cons, h1, List.find?_cons, h2, ih]

theorem dictGet_dictSet {β : Type} (d : List (String × β)) (k k' : String)
    (v : β) :
    dictGet (dictSet d k v) k' = if k' = k then some v else dictGet d k' := by
  by_cases h : k' = k
  · subst h
    simp [dictGet, dictSet, List.find?_cons]
  · have hb : (k == k') = false := by simp [Ne.symm h]
    simp [dictGet, dictSet, List.find?_cons, hb, h, find?_filter_ne d k k' h]

theorem store_entry_length_le {α : Type} (l : List (String × α))
    (event_id : String) (data : α) (h : l.length ≤ 100) :
    (store_entry l event_id data).length ≤ 100 := by
  simp only [store_entry]
  by_cases hgt : (l ++ [(event_id, data)]).length > 100
  · rw [if_pos hgt]
    simp only [List.length_drop]
    omega
  · rw [if_neg hgt]
    omega

/-- Folding `store_entry` over a sequence of events from a log within the
bound retains exactly the last 100 of the concatenated sequence, in order. -/
theorem store_entry_foldl {α : Type} (es l : List (String × α))
    (h : l.length ≤ 100) :
    List.foldl (fun acc e => store_entry acc e.1 e.2) l es
      = (l ++ es).drop ((l ++ es).length - 100) := by
  induction es generalizing l with
  | nil =>
    have h0 : l.length - 100 = 0 := by omega
    simp [h0]
  | cons e es ih =>
    obtain ⟨e1, e2⟩ := e
    rw [List.foldl_cons, ih _ (store_entry_length_le l e1 e2 h)]
    by_cases h100 : l.length < 100
    · have hsz : ¬ (l ++ [(e1, e2)]).length > 100 := by
        simp only [List.length_append, List.length_cons, List.length_nil]
        omega
      have heq : store_entry l e1 e2 = l ++ [(e1, e2)] := by
        simp only [store_entry]
        rw [if_neg hsz]
      rw [heq]
      simp [List.append_assoc]
    · have hlen : l.length = 100 := by omega
      have hsz : (l ++ [(e1, e2)]).length > 100 := by
        simp only [List.length_append, List.length_cons, List.length_nil]
        omega
      have htr : store_entry l e1 e2 = (l ++ [(e1, e2)]).drop 1 := by
        simp only [store_entry]
        rw [if_pos hsz]
        congr 1
        simp only [List.length_append, List.length_cons, List.length_nil]
        omega
      rw [htr]
      have e3 : (l ++ [(e1, e2)]).drop 1 ++ es = ((l ++ (e1, e2) :: es)).drop 1 := by
        rw [← List.drop_append_of_le_length (by simp)]
        simp [List.append_assoc]
      rw [e3, List.drop_drop]
      congr 1
      simp only [List.length_drop, List.length_append, List.length_cons]
      omega

/-- Characterisation of one client's log after an arbitrary interleaved
sequence of `_store_event` calls: it is the `store_entry`-fold of the events
addressed to that client. -/
theorem store_event_foldl {α : Type} (ops : List (String × String × α))
    (h : List (String × List (String × α))) (cid : String) :
    (dictGet (ops.foldl (fun d op => store_event d op.1 op.2.1 op.2.2) h) cid).getD []
      = List.foldl (fun acc e => store_entry acc e.1 e.2)
          ((dictGet h cid).getD [])
          ((ops.filter (fun op => op.1 == cid)).map (fun op => op.2)) := by
  induction ops generalizing h with
  | nil => rfl
  | cons op ops ih =>
    rw [List.foldl_cons, ih]
    by_cases hk : op.1 = cid
    · have hb : (op.1 == cid) = true := by simp [hk]
      have hstart : (dictGet (store_event h op.1 op.2.1 op.2.2) cid).getD []
          = store_entry ((dictGet h cid).getD []) op.2.1 op.2.2 := by
        rw [store_event, dictGet_dictSet, if_pos hk.symm, Option.getD_some, hk]
      rw [hstart]
      simp only [List.filter_cons, hb, if_true, List.map_cons, List.foldl_cons]
    · have hb : (op.1 == cid) = false := by simp [hk]
      have hstart : dictGet (store_event h op.1 op.2.1 op.2.2) cid = dictGet h cid := by
        rw [store_event, dictGet_dictSet, if_neg (fun hcc => hk hcc.symm)]
      rw [hstart]
      simp only [List.filter_cons, hb, if_false, Bool.false_eq_true]

/-! ## C7 — the event log is bounded to the last 100 entries, in order -/

/-- C7 (confirmed): after any sequence of `_store_event` operations starting
from the empty history, each connection's log is exactly the suffix of the
last (at most) 100 events stored for that connection, in store order — so it
has at most 100 entries, eviction is oldest-first, and the retained entries
are the most recently stored ones. -/
theorem c7_event_log_bounded {α : Type} (ops : List (String × String × α))
    (cid : String) :
    ((dictGet (ops.foldl (fun d op => store_event d op.1 op.2.1 op.2.2) []) cid).getD []).length ≤ 100
    ∧ (dictGet (ops.foldl (fun d op => store_event d op.1 op.2.1 op.2.2) []) cid).getD []
        = ((ops.filter (fun op => op.1 == cid)).map (fun op => op.2)).drop
            (((ops.filter (fun op => op.1 == cid)).map (fun op => op.2)).length - 100) := by
  have hmain := store_event_foldl ops [] cid
  have hempty : (dictGet ([] : List (String × List (String × α))) cid).getD [] = [] := rfl
  rw [hempty] at hmain
  rw [store_entry_foldl _ [] (by simp)] at hmain
  simp only [List.nil_append] at hmain
  refine ⟨?_, hmain⟩
  rw [hmain]
  simp only [List.length_drop]
  omega

/-! ## C3 — what `stop()` actually clears -/

theorem close_fold_clients {α : Type} (l : List SSEClient)
    (st : TransportState α) :
    (List.foldl close_client st l).clients
      = st.clients.filter (fun x => !(l.any (fun c => x.client_id == c.client_id))) := by
  induction l generalizing st with
  | nil => simp
  | cons c l ih =>
    rw [List.foldl_cons, ih]
    simp only [close_client, List.any_cons, List.filter_filter]
    apply List.filter_congr
    intro x _
    cases hx : (x.client_id == c.client_id) <;> simp [hx]

theorem close_fold_frame {α : Type} (l : List SSEClient)
    (st : TransportState α) :
    (List.foldl close_client st l).running = st.running
    ∧ (List.foldl close_client st l).sessions = st.sessions
    ∧ (List.foldl close_client st l).event_history = st.event_history
    ∧ (List.foldl close_client st l).client_counter = st.client_counter := by
  induction l generalizing st with
  | nil => exact ⟨rfl, rfl, rfl, rfl⟩
  | cons c l ih => exact ih (close_client st c)

/-- C3 (amended, proved): after `stop()` the connection table is empty, but
the session table and the per-connection event logs are exactly what they
were before the call — `stop` never clears them. -/
theorem c3_stop_state {α : Type} (st : TransportState α) :
    (stop st).clients = []
    ∧ (stop st).sessions = st.sessions
    ∧ (stop st).event_history = st.event_history
    ∧ (stop st).running = false := by
  have hframe := close_fold_frame st.clients { st with running := false }
  have hcl : (stop st).clients = [] := by
    rw [stop, close_fold_clients]
    rw [List.filter_eq_nil_iff]
    intro x hx
    have hany : st.clients.any (fun c => x.client_id == c.client_id) = true :=
      List.any_eq_true.mpr ⟨x, hx, by simp⟩
    simp [hany]
  exact ⟨hcl, hframe.2.1, hframe.2.2.1, hframe.1⟩

/-- Concrete pre-`stop` state with one client, one session, and one stored
event. -/
def c3_state : TransportState Nat :=
  { running := true
    clients := [{ client_id := "client_1", last_ping := 0 }]
    sessions := [("s1", { session_id := "s1", created_at := 0, last_accessed := 0 })]
    event_history := [("client_1", [("client_1_1", 7)])]
    client_counter := 1 }

/-- C3 counterexample: the claim says the session table and the event logs
are empty after `stop()`; on `c3_state` both survive the call unchanged
(only the connection table is cleared). -/
theorem c3_counterexample :
    (stop c3_state).clients = []
    ∧ (stop c3_state).sessions ≠ []
    ∧ (stop c3_state).event_history ≠ [] := by
  refine ⟨rfl, ?_, ?_⟩ <;> decide

/-! ## C4 — the bind policy only rewrites wildcard hosts -/

/-- C4 counterexample: a configured non-wildcard, non-loopback host is kept
as the effective bind host, so construction does not force a loopback
address. -/
theorem c4_counterexample :
    (sseTransportInit (some { host := some "192.168.1.5", port := 8765 })).host
      = some "192.168.1.5"
    ∧ isLoopbackHost (some "192.168.1.5") = false := by
  refine ⟨rfl, ?_⟩
  decide

/-- C4 (amended, proved): constructing the transport with no config, an
unset host, or the wildcard host `0.0.0.0` yields the loopback bind host
`127.0.0.1`; any other configured host is left unchanged, so non-wildcard
non-loopback hosts are not refused. -/
theorem c4_bind_policy :
    (sseTransportInit none).host = some "127.0.0.1"
    ∧ (∀ p, (sseTransportInit (some { host := none, port := p })).host
        = some "127.0.0.1")
    ∧ (∀ p, (sseTransportInit (some { host := some "0.0.0.0", port := p })).host
        = some "127.0.0.1")
    ∧ (∀ h p, h ≠ "0.0.0.0" →
        sseTransportInit (some { host := some h, port := p })
          = { host := some h, port := p }) := by
  refine ⟨rfl, fun p => rfl, fun p => rfl, fun h p hne => ?_⟩
  rw [sseTransportInit]
  rw [if_neg]
  · rfl
  · simp [hne]

/-- Witness for `c4_bind_policy`: instantiating the non-wildcard clause at
the concrete host `192.168.1.5`. -/
theorem c4_bind_policy_witness :
    "192.168.1.5" ≠ "0.0.0.0"
    ∧ sseTransportInit (some { host := some "192.168.1.5", port := 8765 })
        = { host := some "192.168.1.5", port := 8765 } :=
  ⟨by decide, c4_bind_policy.2.2.2 "192.168.1.5" 8765 (by decide)⟩

/-! ## C5 — the origin allow-list -/

/-- Gate-passing POST request template used for concrete evaluations. -/
def baseReq (body : Except String JValue) : PostRequest :=
  { origin := none, protocol_version := none
    content_type := some "application/json", session_header := none
    accept := none, body := body }

/-- C5 counterexample: a request whose `Origin` header is present with the
empty value matches none of the four allowed prefixes, yet it is accepted
(Python `if not origin:` treats the empty string like an absent header), so
it is not rejected with 403 as the claim requires for "any other Origin
value". -/
theorem c5_counterexample :
    validate_origin (some "") = true
    ∧ allowed_prefixes.any (fun p => p.data.isPrefixOf "".data) = false
    ∧ handle_post [] { baseReq (.ok (.obj [])) with origin := some "" } ≠ .forbidden := by
  refine ⟨rfl, by decide, ?_⟩
  intro hcontra
  have heq : handle_post [] { baseReq (.ok (.obj [])) with origin := some "" }
      = .accepted := rfl
  rw [heq] at hcontra
  exact PostResult.noConfusion hcontra

/-- C5 (amended, proved): requests with no `Origin` header or an empty
`Origin` value are accepted; a request with a non-empty `Origin` value is
accepted exactly when the value begins with one of `http://localhost`,
`https://localhost`, `http://127.0.0.1`, `https://127.0.0.1` (any port),
and every rejected origin makes `_handle_post` answer 403. -/
theorem c5_origin_allowlist :
    validate_origin none = true
    ∧ validate_origin (some "") = true
    ∧ (∀ o : String, o ≠ "" →
        (validate_origin (some o) = true ↔
          ("http://localhost".data.isPrefixOf o.data = true
           ∨ "https://localhost".data.isPrefixOf o.data = true
           ∨ "http://127.0.0.1".data.isPrefixOf o.data = true
           ∨ "https://127.0.0.1".data.isPrefixOf o.data = true)))
    ∧ (∀ sessions req, validate_origin req.origin = false →
        handle_post sessions req = .forbidden
        ∧ statusCode (handle_post sessions req) = 403) := by
  refine ⟨rfl, rfl, ?_, ?_⟩
  · intro o ho
    have hb : (o == "") = false := by simp [ho]
    simp only [validate_origin, hb, Bool.false_eq_true, if_false, allowed_prefixes,
      List.any_cons, List.any_nil, Bool.or_eq_true, Bool.or_false]
    tauto
  · intro sessions req hor
    have hres : handle_post sessions req = .forbidden := by
      rw [handle_post, hor]
      rfl
    exact ⟨hres, by rw [hres]; rfl⟩

/-- Witness for `c5_origin_allowlist`: the allow-list clause at the concrete
origins `http://localhost:3000` (accepted) and `http://evil.example`
(rejected with 403). -/
theorem c5_origin_allowlist_witness :
    validate_origin (some "http://localhost:3000") = true
    ∧ handle_post [] { baseReq (.ok (.obj [])) with origin := some "http://evil.example" }
        = .forbidden := by
  constructor
  · exact (c5_origin_allowlist.2.2.1 "http://localhost:3000" (by decide)).mpr
      (Or.inl (by decide))
  · exact (c5_origin_allowlist.2.2.2 []
      { baseReq (.ok (.obj [])) with origin := some "http://evil.example" }
      (by decide)).1

/-! ## C2 — the gate sequence of `_handle_post` -/

/-- C2 counterexample: a non-initialize request carrying the session id
header with the empty value, over an empty session table.  The claim
requires 404 ("a session id header is present … and does not validate");
the code's `if not is_initialize and session_id:` treats the empty header
value as absent, skips the session gate, and answers 202. -/
theorem c2_counterexample :
    validate_session [] (some "") = false
    ∧ handle_post [] { baseReq (.ok (.obj [])) with session_header := some "" }
        = .accepted
    ∧ statusCode (handle_post [] { baseReq (.ok (.obj [])) with session_header := some "" })
        ≠ 404 := by
  refine ⟨rfl, rfl, by decide⟩

/-- C2 (amended, proved): the gates of `_handle_post` run in the fixed
order origin → protocol version → content type → JSON parse → session, the
first failing gate determines the response regardless of everything later
in the request, and each gate carries its specific status (403, 400, 400,
400 echoing the parser error, 404).  The session gate fires exactly when
the session id header is present *with a non-empty value* on a
non-initialize message and fails validation. -/
theorem c2_gate_order (sessions : List (String × SessionInfo)) (req : PostRequest) :
    (validate_origin req.origin = false → handle_post sessions req = .forbidden)
    ∧ (validate_origin req.origin = true →
        (validate_protocol_version req.protocol_version).1 = false →
        handle_post sessions req
          = .badVersion (validate_protocol_version req.protocol_version).2)
    ∧ (validate_origin req.origin = true →
        (validate_protocol_version req.protocol_version).1 = true →
        str_contains (req.content_type.getD "") "application/json" = false →
        handle_post sessions req = .badContentType)
    ∧ (∀ e, validate_origin req.origin = true →
        (validate_protocol_version req.protocol_version).1 = true →
        str_contains (req.content_type.getD "") "application/json" = true →
        req.body = .error e →
        handle_post sessions req = .badJson ("Invalid JSON: " ++ e))
    ∧ (∀ data, validate_origin req.origin = true →
        (validate_protocol_version req.protocol_version).1 = true →
        str_contains (req.content_type.getD "") "application/json" = true →
        req.body = .ok data →
        is_initialize_msg data = false →
        headerTruthy req.session_header = true →
        validate_session sessions req.session_header = false →
        handle_post sessions req = .sessionNotFound)
    ∧ statusCode .forbidden = 403
    ∧ (∀ t, statusCode (.badVersion t) = 400)
    ∧ statusCode .badContentType = 400
    ∧ (∀ t, statusCode (.badJson t) = 400)
    ∧ statusCode .sessionNotFound = 404 := by
  refine ⟨?_, ?_, ?_, ?_, ?_, rfl, fun t => rfl, rfl, fun t => rfl, rfl⟩
  · intro h1
    rw [handle_post, h1]
    rfl
  · intro h1 h2
    rw [handle_post, h1]
    simp only [Bool.not_true, Bool.false_eq_true, if_false, h2, Bool.not_false, if_true]
  · intro h1 h2 h3
    rw [handle_post, h1]
    simp only [Bool.not_true, Bool.false_eq_true, if_false, h2, h3, Bool.not_false, if_true]
  · intro e h1 h2 h3 h4
    rw [handle_post, h1]
    simp only [Bool.not_true, Bool.false_eq_true, if_false, h2, h3, Bool.not_false, h4]
  · intro data h1 h2 h3 h4 h5 h6 h7
    rw [handle_post, h1]
    simp only [Bool.not_true, Bool.false_eq_true, if_false, h2, h3, Bool.not_false, h4,
      h5, h6, h7, Bool.not_false, Bool.true_and, Bool.and_true, if_true]

/-- Witness for `c2_gate_order`: each gate clause applied at a concrete
failing request. -/
theorem c2_gate_order_witness :
    handle_post [] { baseReq (.ok (.obj [])) with origin := some "http://evil.example" }
      = .forbidden
    ∧ handle_post [] { baseReq (.ok (.obj [])) with protocol_version := some "1999-01-01" }
      = .badVersion "Unsupported protocol version: 1999-01-01"
    ∧ handle_post [] { baseReq (.ok (.obj [])) with content_type := some "text/plain" }
      = .badContentType
    ∧ handle_post [] (baseReq (.error "boom")) = .badJson ("Invalid JSON: " ++ "boom")
    ∧ handle_post [] { baseReq (.ok (.obj [])) with session_header := some "nope" }
      = .sessionNotFound :=
  ⟨(c2_gate_order [] _).1 (by decide),
   (c2_gate_order [] _).2.1 (by decide) (by decide),
   (c2_gate_order [] _).2.2.1 (by decide) (by decide) (by decide),
   (c2_gate_order [] _).2.2.2.1 "boom" (by decide) (by decide) (by decide) rfl,
   (c2_gate_order [] _).2.2.2.2.1 (.obj []) (by decide) (by decide) (by decide) rfl rfl rfl rfl⟩

/-! ## C6 and C9 — the 202 fast path after the gates -/

theorem session_gate_false (sessions : List (String × SessionInfo))
    (req : PostRequest) (data : JValue)
    (hsess : is_initialize_msg data = false →
      headerTruthy req.session_header = true →
      validate_session sessions req.session_header = true) :
    (!(is_initialize_msg data) && headerTruthy req.session_header
      && !(validate_session sessions req.session_header)) = false := by
  cases hI : is_initialize_msg data
  · cases hT : headerTruthy req.session_header
    · simp [hT]
    · simp [hsess hI hT]
  · simp

/-- Under passing gates, `_handle_post` reduces to the classification
branch: 202 when every classified message is a response or every one is a
notification, otherwise the `Accept`-driven stream/acknowledgement choice. -/
theorem handle_post_classified (sessions : List (String × SessionInfo))
    (req : PostRequest) (data : JValue)
    (hbody : req.body = .ok data)
    (hor : validate_origin req.origin = true)
    (hver : (validate_protocol_version req.protocol_version).1 = true)
    (hct : str_contains (req.content_type.getD "") "application/json" = true)
    (hsess : is_initialize_msg data = false →
      headerTruthy req.session_header = true →
      validate_session sessions req.session_header = true) :
    handle_post sessions req =
      if (classify_messages data).all JMessage.isResponse
          || (classify_messages data).all JMessage.isNotification then
        .accepted
      else if str_contains (req.accept.getD "") "text/event-stream" then
        .sseStream (classify_messages data) req.session_header (is_initialize_msg data)
      else
        .jsonAck (classify_messages data).length
          (is_initialize_msg data && !(headerTruthy req.session_header)) := by
  rw [handle_post, hor]
  simp only [Bool.not_true, Bool.false_eq_true, if_false, hver, hct, Bool.not_false,
    if_true, hbody]
  rw [session_gate_false sessions req data hsess]
  simp only [Bool.false_eq_true, if_false]

theorem classify_eq_nil (data : JValue)
    (hdrop : ∀ m ∈ member_messages data, parse_message m = none) :
    classify_messages data = [] := by
  cases data
  case arr items =>
    exact List.filterMap_eq_nil_iff.mpr (by simpa [member_messages] using hdrop)
  all_goals
    simp only [classify_messages]
    rw [hdrop _ (by simp [member_messages])]
    rfl

theorem classify_mem_request (data : JValue) (fields : List (String × JValue))
    (hmem : JValue.obj fields ∈ member_messages data)
    (hm : hasKey fields "method" = true) (hid : hasKey fields "id" = true) :
    JMessage.request (.obj fields) ∈ classify_messages data := by
  have hparse : parse_message (.obj fields) = some (.request (.obj fields)) := by
    simp [parse_message, hm, hid]
  cases data
  case arr items =>
    simp only [member_messages] at hmem
    exact List.mem_filterMap.mpr ⟨_, hmem, hparse⟩
  all_goals
    simp only [member_messages, List.mem_singleton] at hmem
    first
    | exact absurd hmem (by intro hc; exact JValue.noConfusion hc)
    | (injection hmem with hf
       subst hf
       simp [classify_messages, hparse])

/-- C6 (confirmed): once all gates pass, a body whose classified messages
are all notifications, or all responses, is answered 202 Accepted without
opening a stream; a body containing an envelope with both `method` and `id`
(a request) never takes the 202 branch. -/
theorem c6_notifications_responses_202 (sessions : List (String × SessionInfo))
    (req : PostRequest) (data : JValue)
    (hbody : req.body = .ok data)
    (hor : validate_origin req.origin = true)
    (hver : (validate_protocol_version req.protocol_version).1 = true)
    (hct : str_contains (req.content_type.getD "") "application/json" = true)
    (hsess : is_initialize_msg data = false →
      headerTruthy req.session_header = true →
      validate_session sessions req.session_header = true) :
    ((classify_messages data).all JMessage.isNotification = true →
      handle_post sessions req = .accepted)
    ∧ ((classify_messages data).all JMessage.isResponse = true →
      handle_post sessions req = .accepted)
    ∧ (∀ fields, JValue.obj fields ∈ member_messages data →
        hasKey fields "method" = true → hasKey fields "id" = true →
        handle_post sessions req ≠ .accepted) := by
  rw [handle_post_classified sessions req data hbody hor hver hct hsess]
  refine ⟨fun hall => by simp [hall], fun hall => by simp [hall], ?_⟩
  intro fields hmem hm hid
  have hreq := classify_mem_request data fields hmem hm hid
  have hnotif : (classify_messages data).all JMessage.isNotification = false :=
    List.all_eq_false.mpr ⟨_, hreq, by simp [JMessage.isNotification]⟩
  have hresp : (classify_messages data).all JMessage.isResponse = false :=
    List.all_eq_false.mpr ⟨_, hreq, by simp [JMessage.isResponse]⟩
  rw [hnotif, hresp]
  simp only [Bool.or_self, Bool.false_eq_true, if_false]
  split
  · intro hc
    exact PostResult.noConfusion hc
  · intro hc
    exact PostResult.noConfusion hc

/-- Batch of two notifications. -/
def c6_data_notif : JValue :=
  .arr [.obj [("jsonrpc", .str "2.0"), ("method", .str "a")],
        .obj [("jsonrpc", .str "2.0"), ("method", .str "b")]]

/-- Batch of two responses (one `result`, one `error`). -/
def c6_data_resp : JValue :=
  .arr [.obj [("jsonrpc", .str "2.0"), ("id", .num 1), ("result", .null)],
        .obj [("jsonrpc", .str "2.0"), ("id", .num 2), ("error", .null)]]

/-- The fields of a single request envelope. -/
def c6_req_fields : List (String × JValue) :=
  [("jsonrpc", .str "2.0"), ("method", .str "tools/list"), ("id", .num 1)]

/-- Witness for `c6_notifications_responses_202`: a two-notification batch
and a two-response batch are answered 202; a single request is not. -/
theorem c6_notifications_responses_202_witness :
    handle_post [] (baseReq (.ok c6_data_notif)) = .accepted
    ∧ handle_post [] (baseReq (.ok c6_data_resp)) = .accepted
    ∧ handle_post [] (baseReq (.ok (.obj c6_req_fields))) ≠ .accepted :=
  ⟨(c6_notifications_responses_202 [] (baseReq (.ok c6_data_notif)) c6_data_notif
      rfl rfl rfl rfl (fun _ hT => absurd hT (by decide))).1 (by decide),
   (c6_notifications_responses_202 [] (baseReq (.ok c6_data_resp)) c6_data_resp
      rfl rfl rfl rfl (fun _ hT => absurd hT (by decide))).2.1 (by decide),
   (c6_notifications_responses_202 [] (baseReq (.ok (.obj c6_req_fields)))
      (.obj c6_req_fields) rfl rfl rfl rfl
      (fun _ hT => absurd hT (by decide))).2.2 c6_req_fields
      (by simp [member_messages]) (by decide) (by decide)⟩

/-- C9 (confirmed): a gate-passing POST whose body yields zero classified
messages — an empty JSON array, or a body every element of which is dropped
by the classifier — is answered 202 Accepted, the all-notifications /
all-responses checks being vacuously true on the empty list. -/
theorem c9_empty_classification_202 (sessions : List (String × SessionInfo))
    (req : PostRequest) (data : JValue)
    (hbody : req.body = .ok data)
    (hor : validate_origin req.origin = true)
    (hver : (validate_protocol_version req.protocol_version).1 = true)
    (hct : str_contains (req.content_type.getD "") "application/json" = true)
    (hsess : is_initialize_msg data = false →
      headerTruthy req.session_header = true →
      validate_session sessions req.session_header = true)
    (hdrop : ∀ m ∈ member_messages data, parse_message m = none) :
    handle_post sessions req = .accepted := by
  rw [handle_post_classified sessions req data hbody hor hver hct hsess,
    classify_eq_nil data hdrop]
  simp

/-- Array body with one element matching none of the three message shapes. -/
def c9_data_junk : JValue := .arr [.obj [("foo", .str "bar")]]

/-- Witness for `c9_empty_classification_202`: the empty JSON array, and a
singleton array whose only element matches no message shape. -/
theorem c9_empty_classification_202_witness :
    handle_post [] (baseReq (.ok (.arr []))) = .accepted
    ∧ handle_post [] (baseReq (.ok c9_data_junk)) = .accepted :=
  ⟨c9_empty_classification_202 [] (baseReq (.ok (.arr []))) (.arr [])
      rfl rfl rfl rfl (fun _ hT => absurd hT (by decide))
      (by simp [member_messages]),
   c9_empty_classification_202 [] (baseReq (.ok c9_data_junk)) c9_data_junk
      rfl rfl rfl rfl (fun _ hT => absurd hT (by decide))
      (by intro m hm
          simp only [c9_data_junk, member_messages, List.mem_singleton] at hm
          subst hm
          rfl)⟩

/-! ## C1 — replay on reconnect -/

/-- Event history of connection `client_1` holding the ten events
`client_1_1 … client_1_10` in delivery order (payloads `1 … 10`). -/
def c1_history : List (String × List (String × Nat)) :=
  [("client_1",
    [("client_1_1", 1), ("client_1_2", 2), ("client_1_3", 3), ("client_1_4", 4),
     ("client_1_5", 5), ("client_1_6", 6), ("client_1_7", 7), ("client_1_8", 8),
     ("client_1_9", 9), ("client_1_10", 10)])]

/-- Transport state after `client_1` received those ten events and
disconnected. -/
def c1_state : TransportState Nat :=
  { running := true, clients := [], sessions := [], event_history := c1_history
    client_counter := 1 }

/-- C1 (code bug, evaluated): reconnecting to `c1_state` with
`Last-Event-ID: client_1_5` allocates the fresh connection id `client_2`
and replays *nothing* — the event log is keyed by the newly assigned
connection id, whose log is empty, so the claimed delivery of
`client_1_6 … client_1_10` never happens.  Moreover, even when
`_replay_events` is run against the connection that owns the log, the loop
iterates the very list each re-delivery appends to, re-delivering 96 events
instead of the five after `client_1_5`. -/
theorem c1_replay_bug :
    (initiate_sse_replay c1_state 0 none (some "client_1_5")).2.1.client_id
      = "client_2"
    ∧ (initiate_sse_replay c1_state 0 none (some "client_1_5")).2.2 = []
    ∧ (replay_events c1_history "client_1" "client_1_5").2.length = 96
    ∧ (replay_events c1_history "client_1" "client_1_5").2.length ≠ 5 := by
  refine ⟨rfl, rfl, by decide, by decide⟩

/-! ## C10 — every stream write is logged, but replay feeds its own loop -/

/-- Event history of connection `c` holding two events, so exactly one event
(`c_2`) strictly follows `c_1`. -/
def c10_history : List (String × List (String × Nat)) :=
  [("c", [("c_1", 1), ("c_2", 2)])]

/-- C10 counterexample: replaying `c10_history` from `c_1` should, per the
claim, re-deliver `k = 1` event and append 1 duplicate entry (log
`2 → 3` entries); the code re-delivers 100 events and leaves a 100-entry
log, because the loop iterates the same list object `_store_event` appends
to. -/
theorem c10_counterexample :
    (replay_events c10_history "c" "c_1").2.length = 100
    ∧ (replay_events c10_history "c" "c_1").2.length ≠ 1
    ∧ ((dictGet (replay_events c10_history "c" "c_1").1 "c").getD []).length = 100
    ∧ ((dictGet (replay_events c10_history "c" "c_1").1 "c").getD []).length ≠ 3 := by
  refine ⟨by decide, by decide, by decide, by decide⟩

/-- C10 (amended, proved): every event written to a client's stream by
`_send_sse_event` is appended to that client's event log — also when a
pre-existing event id is supplied, as during replay — so replay mutates the
event log; but because the replay loop iterates the same list object the
store appends to, the number of entries a replay appends is not the number
`k` of events after the matched id (on `c10_history`, `k = 1` yet 100
events are re-delivered and the log ends with 100 entries). -/
theorem c10_send_appends {α : Type} (hist : List (String × List (String × α)))
    (client : SSEClient) (event_id : Option String) (data : α) :
    ((send_sse_event hist client event_id data).1
        = store_event hist client.client_id
            (send_sse_event hist client event_id data).2.2 data
      ∧ dictGet (send_sse_event hist client event_id data).1 client.client_id
        = some (store_entry ((dictGet hist client.client_id).getD [])
            ((send_sse_event hist client event_id data).2.2) data))
    ∧ (replay_events c10_history "c" "c_1").2.length = 100
    ∧ ((dictGet (replay_events c10_history "c" "c_1").1 "c").getD []).length = 100 := by
  refine ⟨⟨?_, ?_⟩, by decide, by decide⟩
  · cases event_id <;> rfl
  · cases event_id <;>
      simp [send_sse_event, generate_event_id, store_event, dictGet_dictSet]

/-! ## C8 — event-id monotonicity and recoverability

Facts about the decimal representation `Nat.repr` (used by the Python
f-string formatting of ids): its characters are decimal digits, and it is
injective.  Both are proved through the reference characterisation
`decChars`. -/

theorem toDigitsCore_eq_decChars :
    ∀ (fuel n : Nat) (acc : List Char), n < fuel →
      Nat.toDigitsCore 10 fuel n acc = decChars n ++ acc := by
  intro fuel
  induction fuel with
  | zero => intro n acc h; omega
  | succ fuel ih =>
    intro n acc h
    have hstep : Nat.toDigitsCore 10 (fuel + 1) n acc
        = if n / 10 = 0 then Nat.digitChar (n % 10) :: acc
          else Nat.toDigitsCore 10 fuel (n / 10) (Nat.digitChar (n % 10) :: acc) := rfl
    by_cases h10 : n / 10 = 0
    · have hlt : n < 10 := (Nat.div_eq_zero_iff (by omega)).mp h10
      have hmod : n % 10 = n := Nat.mod_eq_of_lt hlt
      rw [hstep, if_pos h10, decChars, if_pos hlt, hmod]
      rfl
    · have hpos : 0 < n := by
        rcases Nat.eq_zero_or_pos n with h0 | hp
        · subst h0; simp at h10
        · exact hp
      have hge : ¬ n < 10 := by
        intro hlt
        exact h10 ((Nat.div_eq_zero_iff (by omega)).mpr hlt)
      have hdiv : n / 10 < fuel := by
        have hd := Nat.div_lt_self hpos (by omega : (1:Nat) < 10)
        omega
      rw [hstep, if_neg h10, decChars, if_neg hge, ih (n / 10) _ hdiv]
      simp

theorem repr_data (n : Nat) : (Nat.repr n).data = decChars n := by
  have h1 : Nat.repr n = List.asString (Nat.toDigitsCore 10 (n + 1) n []) := rfl
  rw [h1, toDigitsCore_eq_decChars (n + 1) n [] (by omega), List.append_nil]
  rfl

theorem digitChar_mem : ∀ m : Nat, m < 10 →
    Nat.digitChar m ∈ ['0', '1', '2', '3', '4', '5', '6', '7', '8', '9'] := by
  decide

theorem digitChar_inj10 : ∀ a : Nat, a < 10 → ∀ b : Nat, b < 10 →
    Nat.digitChar a = Nat.digitChar b → a = b := by
  decide

theorem decChars_digits (n : Nat) :
    ∀ c ∈ decChars n, c ∈ ['0', '1', '2', '3', '4', '5', '6', '7', '8', '9'] := by
  induction n using decChars.induct with
  | case1 n hn =>
    intro c hc
    rw [decChars, if_pos hn] at hc
    simp only [List.mem_singleton] at hc
    subst hc
    exact digitChar_mem n hn
  | case2 n hn ih =>
    intro c hc
    rw [decChars, if_neg hn] at hc
    rcases List.mem_append.mp hc with h1 | h2
    · exact ih c h1
    · simp only [List.mem_singleton] at h2
      subst h2
      exact digitChar_mem _ (Nat.mod_lt _ (by omega))

theorem decChars_ne_nil (n : Nat) : decChars n ≠ [] := by
  by_cases hn : n < 10
  · rw [decChars, if_pos hn]
    simp
  · rw [decChars, if_neg hn]
    simp

theorem decChars_inj : ∀ m n : Nat, decChars m = decChars n → m = n := by
  intro m
  induction m using decChars.induct with
  | case1 m hm =>
    intro n h
    by_cases hn : n < 10
    · rw [decChars, if_pos hm, decChars, if_pos hn] at h
      simp only [List.cons.injEq, and_true] at h
      exact digitChar_inj10 m hm n hn h
    · rw [decChars, if_pos hm, decChars, if_neg hn] at h
      have hlen := congrArg List.length h
      simp only [List.length_singleton, List.length_append, List.length_cons,
        List.length_nil] at hlen
      have hz : (decChars (n / 10)).length = 0 := by omega
      exact absurd (List.length_eq_zero.mp hz) (decChars_ne_nil _)
  | case2 m hm ih =>
    intro n h
    have em : decChars m = decChars (m / 10) ++ [Nat.digitChar (m % 10)] := by
      rw [decChars, if_neg hm]
    by_cases hn : n < 10
    · have en : decChars n = [Nat.digitChar n] := by rw [decChars, if_pos hn]
      rw [em, en] at h
      have hlen := congrArg List.length h
      simp only [List.length_singleton, List.length_append, List.length_cons,
        List.length_nil] at hlen
      have hz : (decChars (m / 10)).length = 0 := by omega
      exact absurd (List.length_eq_zero.mp hz) (decChars_ne_nil _)
    · have en : decChars n = decChars (n / 10) ++ [Nat.digitChar (n % 10)] := by
        rw [decChars, if_neg hn]
      rw [em, en] at h
      obtain ⟨h1, h2⟩ := List.append_inj' h rfl
      simp only [List.cons.injEq, and_true] at h2
      have hmod : m % 10 = n % 10 :=
        digitChar_inj10 _ (Nat.mod_lt _ (by omega)) _ (Nat.mod_lt _ (by omega)) h2
      have hdiv : m / 10 = n / 10 := ih _ h1
      omega

theorem repr_data_inj {m n : Nat} (h : (Nat.repr m).data = (Nat.repr n).data) :
    m = n := by
  apply decChars_inj m n
  rw [← repr_data, ← repr_data, h]

theorem underscore_not_mem_repr (n : Nat) : '_' ∉ (Nat.repr n).data := by
  rw [repr_data]
  intro hmem
  exact absurd (decChars_digits n _ hmem) (by decide)

/-- Splitting a character list at an underscore whose suffix is
underscore-free is unambiguous. -/
theorem append_underscore_inj :
    ∀ (as cs bs ds : List Char), '_' ∉ bs → '_' ∉ ds →
      as ++ '_' :: bs = cs ++ '_' :: ds → as = cs ∧ bs = ds := by
  intro as
  induction as with
  | nil =>
    intro cs bs ds hb hd h
    cases cs with
    | nil =>
      simp only [List.nil_append, List.cons.injEq, true_and] at h ⊢
      exact h
    | cons c cs =>
      simp only [List.nil_append, List.cons_append, List.cons.injEq] at h
      exact absurd (h.2 ▸ List.mem_append_right cs (List.mem_cons_self '_' ds)) hb
  | cons a as ih =>
    intro cs bs ds hb hd h
    cases cs with
    | nil =>
      simp only [List.nil_append, List.cons_append, List.cons.injEq] at h
      exact absurd ((h.2.symm) ▸ List.mem_append_right as (List.mem_cons_self '_' bs)) hd
    | cons c cs =>
      simp only [List.cons_append, List.cons.injEq] at h
      obtain ⟨h1, h2⟩ := ih cs bs ds hb hd h.2
      exact ⟨by rw [h.1, h1], h2⟩

/-- The generated event-id string determines the originating connection
number and the per-connection ordinal: `f"client_{conn}_{counter}"` is
injective in `(conn, counter)`. -/
theorem event_id_str_inj (c k c' k' : Nat)
    (h : event_id_str c k = event_id_str c' k') : c = c' ∧ k = k' := by
  have hd : "client_".data ++ ((Nat.repr c).data ++ '_' :: (Nat.repr k).data)
      = "client_".data ++ ((Nat.repr c').data ++ '_' :: (Nat.repr k').data) := by
    have hdata := congrArg String.data h
    simpa [event_id_str, mk_client_id, String.data_append, List.append_assoc,
      show ("_" : String).data = ['_'] from rfl] using hdata
  have hsplit := List.append_cancel_left hd
  obtain ⟨h1, h2⟩ := append_underscore_inj _ _ _ _
    (underscore_not_mem_repr k) (underscore_not_mem_repr k') hsplit
  exact ⟨repr_data_inj h1, repr_data_inj h2⟩

theorem gen_event_ids_spec (client : SSEClient) (n : Nat) :
    (gen_event_ids client n).1
      = (List.range n).map
          (fun i => client.client_id ++ "_" ++ Nat.repr (client.event_counter + i + 1))
    ∧ (gen_event_ids client n).2
      = { client with event_counter := client.event_counter + n } := by
  induction n generalizing client with
  | zero => exact ⟨rfl, rfl⟩
  | succ n ih =>
    constructor
    · simp only [gen_event_ids, generate_event_id]
      rw [(ih _).1, List.range_succ_eq_map, List.map_cons, List.map_map]
      congr 1
      apply List.map_congr_left
      intro i hi
      simp only [Function.comp]
      have harith : client.event_counter + 1 + i + 1
          = client.event_counter + Nat.succ i + 1 := by omega
      rw [harith]
    · simp only [gen_event_ids, generate_event_id]
      rw [(ih _).2]
      have harith : client.event_counter + 1 + n = client.event_counter + (n + 1) := by
        omega
      simp only [harith]

/-- C8 (confirmed): over any sequence of `n` live deliveries to one
connection, the per-connection counter advances by exactly one per
generated id and never decreases, the emitted ids are
`"{clientId}_{counter}"` for the strictly increasing counters
`c+1, …, c+n`, and the connection number and ordinal are recoverable from
the id string alone (the encoding is injective). -/
theorem c8_event_ids (client : SSEClient) (n : Nat) :
    (gen_event_ids client n).2.event_counter = client.event_counter + n
    ∧ (gen_event_ids client n).1
        = (List.range n).map
            (fun i => client.client_id ++ "_" ++ Nat.repr (client.event_counter + i + 1))
    ∧ List.Pairwise (fun a b => a < b)
        ((List.range n).map (fun i => client.event_counter + i + 1))
    ∧ (∀ c k c' k', event_id_str c k = event_id_str c' k' → c = c' ∧ k = k') := by
  refine ⟨by rw [(gen_event_ids_spec client n).2], (gen_event_ids_spec client n).1,
    ?_, fun c k c' k' h => event_id_str_inj c k c' k' h⟩
  exact List.Pairwise.map _ (fun a b hab => by omega) (List.pairwise_lt_range n)

/-- Witness for `c8_event_ids`: three deliveries to `client_1` emit
`client_1_1, client_1_2, client_1_3`, and decoding the concrete id
`client_3_7` is unambiguous. -/
theorem c8_event_ids_witness :
    (gen_event_ids { client_id := "client_1", last_ping := 0 } 3).1
      = ["client_1_1", "client_1_2", "client_1_3"]
    ∧ (3 = 3 ∧ 7 = 7) :=
  ⟨((c8_event_ids { client_id := "client_1", last_ping := 0 } 3).2.1).trans (by decide),
   (c8_event_ids { client_id := "client_1", last_ping := 0 } 3).2.2.2 3 7 3 7 rfl⟩

end SSE
